import Mathlib

/-!
Shallow embedding of `src/vim_navigation.rs` (vim-style pointer navigation).

Floating-point (`f64`) values are modelled as real numbers; `f64::powf` is
modelled as `Real.rpow` (the `^ : ℝ → ℝ → ℝ` instance).  The two `HashMap`s of
`CursorState` are modelled as functions `Key → Option ℝ`; `Instant`s are real
timestamps, passed explicitly as a `now` parameter where the code calls
`Instant::now()` / `Instant::elapsed`.
-/

namespace VimNav

/-- The subset of `rdev::Key` values this program mentions, plus one
representative `Other` constructor for every other key on the keyboard. -/
inductive Key where
  | KeyH | KeyJ | KeyK | KeyL | KeyI
  | Return | Escape
  | KeyA | KeyS | KeyD | KeyF | KeyW | KeyE | KeyR | KeyT | KeyG | KeyV | KeyY | KeyP
  | Space
  | ShiftLeft | ShiftRight
  | MetaLeft | KeyC
  | Other
deriving DecidableEq

/-- `rdev::Button` (the two buttons the program uses). -/
inductive Button where
  | Left | Right
deriving DecidableEq

/-- `rdev::EventType`, restricted to the variants the program produces or
inspects. -/
inductive EventType where
  | KeyPress (key : Key)
  | KeyRelease (key : Key)
  | MouseMove (x y : ℝ)
  | ButtonPress (button : Button)
  | ButtonRelease (button : Button)
  | Wheel (delta_x delta_y : ℤ)

/-- `VimNavConfig` (src/vim_navigation.rs lines 13-42). -/
structure VimNavConfig where
  initial_move_step : ℝ
  max_move_step : Option ℝ
  acceleration_base : ℝ
  acceleration_multiplier : ℝ
  repeat_delay_ms : ℕ
  move_delay_ms : ℕ
  precision_divisor : ℝ
  key_left : String
  key_down : String
  key_up : String
  key_right : String
  key_click : String
  key_toggle_mode : String
  key_right_click : String
  key_select_toggle : String
  key_goto_top : String
  key_goto_bottom : String
  key_yank : String
  key_paste : String

/-- `impl Default for VimNavConfig` (lines 44-68). -/
noncomputable def VimNavConfig.default : VimNavConfig where
  initial_move_step := 1.0
  max_move_step := none
  acceleration_base := 2.0
  acceleration_multiplier := 50.0
  repeat_delay_ms := 30
  move_delay_ms := 15
  precision_divisor := 100.0
  key_left := "h"
  key_down := "j"
  key_up := "k"
  key_right := "l"
  key_click := "return"
  key_toggle_mode := "escape"
  key_right_click := "i"
  key_select_toggle := "v"
  key_goto_top := "g"
  key_goto_bottom := "shift_g"
  key_yank := "y"
  key_paste := "p"

/-- Rust `str::to_lowercase`, which for the ASCII key names this table
compares against is per-character lowercasing. -/
def lowercase (s : String) : String := String.mk (s.data.map Char.toLower)

/-- `VimNavConfig::string_to_key` (lines 123-148).  The Rust method ignores
`self`, so it is modelled as a plain function. -/
def string_to_key (key_str : String) : Option Key :=
  match lowercase key_str with
  | "h" => some Key.KeyH
  | "j" => some Key.KeyJ
  | "k" => some Key.KeyK
  | "l" => some Key.KeyL
  | "i" => some Key.KeyI
  | "return" | "enter" => some Key.Return
  | "escape" | "esc" => some Key.Escape
  | "a" => some Key.KeyA
  | "s" => some Key.KeyS
  | "d" => some Key.KeyD
  | "f" => some Key.KeyF
  | "w" => some Key.KeyW
  | "e" => some Key.KeyE
  | "r" => some Key.KeyR
  | "t" => some Key.KeyT
  | "g" => some Key.KeyG
  | "v" => some Key.KeyV
  | "y" => some Key.KeyY
  | "p" => some Key.KeyP
  | "shift_g" => some Key.KeyG
  | "space" => some Key.Space
  | _ => none

/-- Resolution of `key_left`: `config.string_to_key(&config.key_left).unwrap_or(Key::KeyH)`
(the pattern at lines 517-519, 598-600, ...). -/
def leftKey (cfg : VimNavConfig) : Key := (string_to_key cfg.key_left).getD Key.KeyH

/-- Resolution of `key_down` with default `Key::KeyJ`. -/
def downKey (cfg : VimNavConfig) : Key := (string_to_key cfg.key_down).getD Key.KeyJ

/-- Resolution of `key_up` with default `Key::KeyK`. -/
def upKey (cfg : VimNavConfig) : Key := (string_to_key cfg.key_up).getD Key.KeyK

/-- Resolution of `key_right` with default `Key::KeyL`. -/
def rightKey (cfg : VimNavConfig) : Key := (string_to_key cfg.key_right).getD Key.KeyL

/-- Resolution of `key_toggle_mode` with default `Key::Escape` (lines 578-581). -/
def toggleKey (cfg : VimNavConfig) : Key := (string_to_key cfg.key_toggle_mode).getD Key.Escape

/-- Resolution of `key_click` with default `Key::Return` (lines 660-663). -/
def clickKey (cfg : VimNavConfig) : Key := (string_to_key cfg.key_click).getD Key.Return

/-- Resolution of `key_right_click` with default `Key::KeyI` (lines 672-675). -/
def rightClickKey (cfg : VimNavConfig) : Key := (string_to_key cfg.key_right_click).getD Key.KeyI

/-- Resolution of `key_select_toggle` with default `Key::KeyV` (lines 684-687). -/
def selectToggleKey (cfg : VimNavConfig) : Key :=
  (string_to_key cfg.key_select_toggle).getD Key.KeyV

/-- Resolution of `key_goto_top` with default `Key::KeyG` (lines 696-699). -/
def gotoTopKey (cfg : VimNavConfig) : Key := (string_to_key cfg.key_goto_top).getD Key.KeyG

/-- Resolution of `key_goto_bottom` with default `Key::KeyG` (lines 709-712). -/
def gotoBottomKey (cfg : VimNavConfig) : Key := (string_to_key cfg.key_goto_bottom).getD Key.KeyG

/-- Resolution of `key_yank` with default `Key::KeyY` (lines 722-725). -/
def yankKey (cfg : VimNavConfig) : Key := (string_to_key cfg.key_yank).getD Key.KeyY

/-- Resolution of `key_paste` with default `Key::KeyP` (lines 734-737). -/
def pasteKey (cfg : VimNavConfig) : Key := (string_to_key cfg.key_paste).getD Key.KeyP

/-- `CursorState` (lines 199-214).  `pressed_keys` maps a held key to its
press-start timestamp; `current_speeds` maps it to the last computed speed. -/
structure CursorState where
  x : ℝ
  y : ℝ
  screen_width : ℝ
  screen_height : ℝ
  pressed_keys : Key → Option ℝ
  current_speeds : Key → Option ℝ
  shift_pressed : Bool
  space_pressed : Bool
  selection_active : Bool
  config : VimNavConfig

/-- `CursorState::start_key_press` (lines 233-237): insert the current instant
into `pressed_keys` and `initial_move_step` into `current_speeds`. -/
def CursorState.start_key_press (s : CursorState) (key : Key) (now : ℝ) : CursorState :=
  { s with
    pressed_keys := fun k => if k = key then some now else s.pressed_keys k
    current_speeds := fun k =>
      if k = key then some s.config.initial_move_step else s.current_speeds k }

/-- `CursorState::stop_key_press` (lines 239-242): remove the key from both
maps. -/
def CursorState.stop_key_press (s : CursorState) (key : Key) : CursorState :=
  { s with
    pressed_keys := fun k => if k = key then none else s.pressed_keys k
    current_speeds := fun k => if k = key then none else s.current_speeds k }

/-- The speed computation at the heart of `CursorState::update_speed`
(lines 250-269), as a function of the hold duration: exponential acceleration,
then the precision division (the code divides by the literal `10.0`,
line 256), then the optional `max_move_step` clamp. -/
noncomputable def computeSpeed (cfg : VimNavConfig) (space_pressed : Bool)
    (hold_duration : ℝ) : ℝ :=
  let exponential_factor := cfg.acceleration_base ^ hold_duration
  let new_speed0 := cfg.initial_move_step + cfg.acceleration_multiplier * exponential_factor
  let new_speed := if space_pressed then new_speed0 / 10 else new_speed0
  match cfg.max_move_step with
  | some max => min new_speed max
  | none => new_speed

/-- `CursorState::update_speed` (lines 244-276): returns the computed speed and
the state with `current_speeds` updated.  `now` stands for the instant at which
`start_time.elapsed()` is taken, so `hold_duration = now - start_time`. -/
noncomputable def CursorState.update_speed (s : CursorState) (key : Key) (now : ℝ) :
    ℝ × CursorState :=
  match s.pressed_keys key with
  | some start_time =>
    let final_speed := computeSpeed s.config s.space_pressed (now - start_time)
    (final_speed,
      { s with current_speeds := fun k =>
          if k = key then some final_speed else s.current_speeds k })
  | none => (s.config.initial_move_step, s)

/-- `CursorState::move_left` (lines 278-281): `x = (x - speed).max(0.0)`. -/
noncomputable def CursorState.move_left (s : CursorState) (key : Key) (now : ℝ) : CursorState :=
  let r := s.update_speed key now
  { r.2 with x := max (r.2.x - r.1) 0 }

/-- `CursorState::move_right` (lines 283-286): `x = (x + speed).min(width - 1.0)`. -/
noncomputable def CursorState.move_right (s : CursorState) (key : Key) (now : ℝ) : CursorState :=
  let r := s.update_speed key now
  { r.2 with x := min (r.2.x + r.1) (r.2.screen_width - 1) }

/-- `CursorState::move_up` (lines 288-291): `y = (y - speed).max(0.0)`. -/
noncomputable def CursorState.move_up (s : CursorState) (key : Key) (now : ℝ) : CursorState :=
  let r := s.update_speed key now
  { r.2 with y := max (r.2.y - r.1) 0 }

/-- `CursorState::move_down` (lines 293-296): `y = (y + speed).min(height - 1.0)`. -/
noncomputable def CursorState.move_down (s : CursorState) (key : Key) (now : ℝ) : CursorState :=
  let r := s.update_speed key now
  { r.2 with y := min (r.2.y + r.1) (r.2.screen_height - 1) }

/-- `CursorState::is_key_pressed` (lines 298-300). -/
def CursorState.is_key_pressed (s : CursorState) (key : Key) : Bool :=
  (s.pressed_keys key).isSome

/-- The OS events emitted by `scroll` (lines 335-385): three wheel events of
magnitude 120 on the axis matching the direction, nothing for an unknown
direction string. -/
def scrollEvents (direction : String) : List EventType :=
  match direction with
  | "up" => List.replicate 3 (EventType.Wheel 0 120)
  | "down" => List.replicate 3 (EventType.Wheel 0 (-120))
  | "left" => List.replicate 3 (EventType.Wheel (-120) 0)
  | "right" => List.replicate 3 (EventType.Wheel 120 0)
  | _ => []

/-- `goto_screen_edge` (lines 411-431): set `y` to `0.0` (top) or
`screen_height - 1.0` (bottom), then emit exactly one `MouseMove` at the
resulting position.  Returns the new state and the emitted events. -/
noncomputable def goto_screen_edge (s : CursorState) (go_to_top : Bool) :
    CursorState × List EventType :=
  let s1 := if go_to_top then { s with y := 0 } else { s with y := s.screen_height - 1 }
  (s1, [EventType.MouseMove s1.x s1.y])

/-- The OS events emitted by `click_mouse` (lines 327-333). -/
def clickEvents : List EventType :=
  [EventType.ButtonPress Button.Left, EventType.ButtonRelease Button.Left]

/-- The OS events emitted by `right_click_mouse` (lines 387-393). -/
def rightClickEvents : List EventType :=
  [EventType.ButtonPress Button.Right, EventType.ButtonRelease Button.Right]

/-- The OS events emitted by `yank_copy` (lines 433-441). -/
def yankEvents : List EventType :=
  [EventType.KeyPress Key.MetaLeft, EventType.KeyPress Key.KeyC,
   EventType.KeyRelease Key.KeyC, EventType.KeyRelease Key.MetaLeft]

/-- The OS events emitted by `paste` (lines 443-451). -/
def pasteEvents : List EventType :=
  [EventType.KeyPress Key.MetaLeft, EventType.KeyPress Key.KeyV,
   EventType.KeyRelease Key.KeyV, EventType.KeyRelease Key.MetaLeft]

/-- `toggle_selection` (lines 395-409): flip `selection_active`; emit a
left-button press if it became true, a left-button release if it became
false. -/
def toggle_selection (s : CursorState) : CursorState × List EventType :=
  let s1 := { s with selection_active := !s.selection_active }
  (s1,
    if s1.selection_active then [EventType.ButtonPress Button.Left]
    else [EventType.ButtonRelease Button.Left])

/-- Result of one invocation of the grab callback (lines 564-793):
the forward/suppress decision (`none` = suppress, i.e. Rust `None`),
the possibly toggled navigation-enabled flag, the updated cursor state,
and the OS events injected by any one-shot action it dispatched. -/
structure CallbackResult where
  decision : Option EventType
  nav_enabled : Bool
  state : CursorState
  emitted : List EventType

/-- The grab callback (lines 564-793).  `nav_enabled` is the value read at
line 565; `now` stands for `Instant::now()` inside `start_key_press`.  The
branch order and the guard conditions mirror the `if`/`else if` chain of the
source exactly. -/
noncomputable def callback (cfg : VimNavConfig) (nav_enabled : Bool) (s : CursorState)
    (event : EventType) (now : ℝ) : CallbackResult :=
  match event with
  | EventType.KeyPress key =>
    let s1 :=
      if key = Key.ShiftLeft ∨ key = Key.ShiftRight then { s with shift_pressed := true } else s
    let s2 := if key = Key.Space then { s1 with space_pressed := true } else s1
    if key = toggleKey cfg then
      let nav' := !nav_enabled
      if nav' then
        ⟨none, nav', s2, []⟩
      else
        ⟨none, nav',
          { s2 with pressed_keys := fun _ => none, current_speeds := fun _ => none }, []⟩
    else if nav_enabled ∧
        (key = leftKey cfg ∨ key = downKey cfg ∨ key = upKey cfg ∨ key = rightKey cfg) then
      if s2.shift_pressed then
        let scroll_dir :=
          if key = leftKey cfg then "left"
          else if key = downKey cfg then "down"
          else if key = upKey cfg then "up"
          else if key = rightKey cfg then "right"
          else ""
        ⟨none, nav_enabled, s2, scrollEvents scroll_dir⟩
      else
        ⟨none, nav_enabled, s2.start_key_press key now, []⟩
    else if nav_enabled ∧ key = clickKey cfg then
      ⟨none, nav_enabled, s2, clickEvents⟩
    else if nav_enabled ∧ key = rightClickKey cfg then
      ⟨none, nav_enabled, s2, rightClickEvents⟩
    else if nav_enabled ∧ key = selectToggleKey cfg then
      let r := toggle_selection s2
      ⟨none, nav_enabled, r.1, r.2⟩
    else if nav_enabled ∧ key = gotoTopKey cfg ∧ s2.shift_pressed = false then
      let r := goto_screen_edge s2 true
      ⟨none, nav_enabled, r.1, r.2⟩
    else if nav_enabled ∧ key = gotoBottomKey cfg ∧ s2.shift_pressed = true then
      let r := goto_screen_edge s2 false
      ⟨none, nav_enabled, r.1, r.2⟩
    else if nav_enabled ∧ key = yankKey cfg then
      ⟨none, nav_enabled, s2, yankEvents⟩
    else if nav_enabled ∧ key = pasteKey cfg then
      ⟨none, nav_enabled, s2, pasteEvents⟩
    else if nav_enabled ∧ key = Key.Space then
      ⟨none, nav_enabled, s2, []⟩
    else
      ⟨some event, nav_enabled, s2, []⟩
  | EventType.KeyRelease key =>
    let s1 :=
      if key = Key.ShiftLeft ∨ key = Key.ShiftRight then { s with shift_pressed := false } else s
    let s2 := if key = Key.Space then { s1 with space_pressed := false } else s1
    if nav_enabled ∧
        (key = leftKey cfg ∨ key = downKey cfg ∨ key = upKey cfg ∨ key = rightKey cfg) then
      ⟨none, nav_enabled, s2.stop_key_press key, []⟩
    else if nav_enabled ∧ key = Key.Space then
      ⟨none, nav_enabled, s2, []⟩
    else
      ⟨some event, nav_enabled, s2, []⟩
  | _ => ⟨some event, nav_enabled, s, []⟩

/-- One iteration of the movement-thread loop body (lines 510-557), without
the sleep: if navigation is enabled, move once for each held direction key
(sequentially, as the source does), and emit a single `MouseMove` at the final
position iff any direction key was held. -/
noncomputable def moverTick (cfg : VimNavConfig) (nav_enabled : Bool) (s : CursorState)
    (now : ℝ) : CursorState × List EventType :=
  if nav_enabled then
    let left_key := leftKey cfg
    let down_key := downKey cfg
    let up_key := upKey cfg
    let right_key := rightKey cfg
    let m1 := s.is_key_pressed left_key
    let s1 := if m1 then s.move_left left_key now else s
    let m2 := s1.is_key_pressed down_key
    let s2 := if m2 then s1.move_down down_key now else s1
    let m3 := s2.is_key_pressed up_key
    let s3 := if m3 then s2.move_up up_key now else s2
    let m4 := s3.is_key_pressed right_key
    let s4 := if m4 then s3.move_right right_key now else s3
    if m1 || m2 || m3 || m4 then (s4, [EventType.MouseMove s4.x s4.y]) else (s4, [])
  else (s, [])

/-! ### Concrete configurations used by the spec's scenarios -/

/-- Scenario A/B base configuration: `initial=1.0, multiplier=50.0, base=2.0`,
no cap — these are exactly the built-in defaults. -/
noncomputable def scenarioAConfig : VimNavConfig := VimNavConfig.default

/-- Scenario B configuration: scenario A with `max_move_step = Some(25.0)`. -/
noncomputable def scenarioBConfig : VimNavConfig :=
  { VimNavConfig.default with max_move_step := some 25 }

/-- A configuration with `acceleration_base = 1/2 < 1` (everything else at the
defaults); the speed formula is strictly decreasing in the hold duration for
such a base. -/
noncomputable def slowBaseConfig : VimNavConfig :=
  { VimNavConfig.default with acceleration_base := 1/2 }

/-! ### Claims about the acceleration engine -/

/-- Claim C2: with precision inactive and no cap configured, the computed speed
equals `initial_move_step + acceleration_multiplier * acceleration_base ^ h`
for every configuration and hold duration; at `h = 0` it already equals
`initial_move_step` plus the full multiplier; with `initial=1.0,
multiplier=50.0, base=2.0` the speed is `51.0` at `h=0` and `101.0` at
`h=1`. -/
theorem claim_C2_speed_formula :
    (∀ (cfg : VimNavConfig) (h : ℝ), cfg.max_move_step = none →
      computeSpeed cfg false h =
        cfg.initial_move_step + cfg.acceleration_multiplier * cfg.acceleration_base ^ h) ∧
    (∀ cfg : VimNavConfig, cfg.max_move_step = none →
      computeSpeed cfg false 0 = cfg.initial_move_step + cfg.acceleration_multiplier) ∧
    computeSpeed scenarioAConfig false 0 = 51 ∧
    computeSpeed scenarioAConfig false 1 = 101 := by
  have hformula : ∀ (cfg : VimNavConfig) (h : ℝ), cfg.max_move_step = none →
      computeSpeed cfg false h =
        cfg.initial_move_step + cfg.acceleration_multiplier * cfg.acceleration_base ^ h := by
    intro cfg h hmax
    simp [computeSpeed, hmax]
  refine ⟨hformula, fun cfg hmax => ?_, ?_, ?_⟩
  · rw [hformula cfg 0 hmax, Real.rpow_zero, mul_one]
  · rw [hformula scenarioAConfig 0 rfl, Real.rpow_zero]
    norm_num [scenarioAConfig, VimNavConfig.default]
  · rw [hformula scenarioAConfig 1 rfl, Real.rpow_one]
    norm_num [scenarioAConfig, VimNavConfig.default]

/-- Witness for C2 at the concrete default configuration and hold duration 2. -/
theorem claim_C2_speed_formula_witness :
    computeSpeed scenarioAConfig false 2 =
      scenarioAConfig.initial_move_step +
        scenarioAConfig.acceleration_multiplier * scenarioAConfig.acceleration_base ^ (2 : ℝ) :=
  claim_C2_speed_formula.1 scenarioAConfig 2 rfl

/-- Claim C1 (code bug): the spec and the code's own documentation say the
precision mode divides the base speed by the configured `precision_divisor`
(default `100.0`, announced as "100x slower" in the comment at line 254 and in
`print_config`), but line 256 divides by the literal `10.0`.  At the default
configuration with space held and hold duration 0 the code computes
`51/10 = 5.1`, while dividing by the configured divisor would give
`51/100 = 0.51`. -/
theorem claim_C1_precision_divides_by_ten_not_divisor :
    computeSpeed VimNavConfig.default true 0 = 51 / 10 ∧
    computeSpeed VimNavConfig.default false 0 / VimNavConfig.default.precision_divisor =
      51 / 100 ∧
    (51 : ℝ) / 10 ≠ 51 / 100 := by
  refine ⟨?_, ?_, by norm_num⟩
  · simp [computeSpeed, VimNavConfig.default, Real.rpow_zero]
    norm_num
  · simp [computeSpeed, VimNavConfig.default, Real.rpow_zero]
    norm_num

/-- Counterexample to claim C5 as stated: with `acceleration_base = 1/2` (and
the other tunables at their defaults) the speed function is *decreasing*:
`h1 = 0 ≤ 1 = h2` but `speed(0) = 51 > 26 = speed(1)`. -/
theorem claim_C5_counterexample :
    (0 : ℝ) ≤ 1 ∧
    ¬ (computeSpeed slowBaseConfig false 0 ≤ computeSpeed slowBaseConfig false 1) := by
  constructor
  · norm_num
  · have h0 : computeSpeed slowBaseConfig false 0 = 51 := by
      simp [computeSpeed, slowBaseConfig, VimNavConfig.default, Real.rpow_zero]
      norm_num
    have h1 : computeSpeed slowBaseConfig false 1 = 26 := by
      simp [computeSpeed, slowBaseConfig, VimNavConfig.default, Real.rpow_one]
      norm_num
    rw [h0, h1]
    norm_num

/-- Claim C5 (amended): for every configuration with `acceleration_base ≥ 1`
and `acceleration_multiplier ≥ 0` and for fixed precision state, the speed
function is monotonically non-decreasing in the hold duration. -/
theorem claim_C5_speed_monotone (cfg : VimNavConfig) (sp : Bool) (h1 h2 : ℝ)
    (hbase : 1 ≤ cfg.acceleration_base) (hmult : 0 ≤ cfg.acceleration_multiplier)
    (h12 : h1 ≤ h2) :
    computeSpeed cfg sp h1 ≤ computeSpeed cfg sp h2 := by
  have hexp : cfg.acceleration_base ^ h1 ≤ cfg.acceleration_base ^ h2 :=
    Real.rpow_le_rpow_of_exponent_le hbase h12
  have hbasestep :
      cfg.initial_move_step + cfg.acceleration_multiplier * cfg.acceleration_base ^ h1 ≤
        cfg.initial_move_step + cfg.acceleration_multiplier * cfg.acceleration_base ^ h2 := by
    have := mul_le_mul_of_nonneg_left hexp hmult
    linarith
  have hpre :
      (if sp then
        (cfg.initial_move_step + cfg.acceleration_multiplier * cfg.acceleration_base ^ h1) / 10
      else cfg.initial_move_step + cfg.acceleration_multiplier * cfg.acceleration_base ^ h1) ≤
      (if sp then
        (cfg.initial_move_step + cfg.acceleration_multiplier * cfg.acceleration_base ^ h2) / 10
      else cfg.initial_move_step + cfg.acceleration_multiplier * cfg.acceleration_base ^ h2) := by
    cases sp
    · simpa using hbasestep
    · simpa using (div_le_div_iff_of_pos_right (by norm_num : (0:ℝ) < 10)).mpr hbasestep
  simp only [computeSpeed]
  cases hm : cfg.max_move_step with
  | none => exact hpre
  | some m => exact min_le_min hpre le_rfl

/-- Witness for the amended C5 at the default configuration, `h1 = 0 ≤ 1 = h2`. -/
theorem claim_C5_speed_monotone_witness :
    computeSpeed VimNavConfig.default false 0 ≤ computeSpeed VimNavConfig.default false 1 :=
  claim_C5_speed_monotone VimNavConfig.default false 0 1
    (by norm_num [VimNavConfig.default]) (by norm_num [VimNavConfig.default]) (by norm_num)

/-- Claim C6: if `max_move_step = Some(M)` the computed speed never exceeds
`M` (for every configuration, precision state and hold duration); with
`initial=1.0, multiplier=50.0, base=2.0, max=25.0` both `h=0` and `h=1` yield
exactly `25.0`; and with `max_move_step = None` (scenario A defaults) the
speed is unbounded as `h` grows. -/
theorem claim_C6_cap_enforcement :
    (∀ (cfg : VimNavConfig) (sp : Bool) (h M : ℝ), cfg.max_move_step = some M →
      computeSpeed cfg sp h ≤ M) ∧
    computeSpeed scenarioBConfig false 0 = 25 ∧
    computeSpeed scenarioBConfig false 1 = 25 ∧
    (∀ B : ℝ, ∃ h : ℝ, B < computeSpeed scenarioAConfig false h) := by
  refine ⟨?_, ?_, ?_, ?_⟩
  · intro cfg sp h M hmax
    simp only [computeSpeed, hmax]
    exact min_le_right _ _
  · simp [computeSpeed, scenarioBConfig, VimNavConfig.default, Real.rpow_zero]
    norm_num
  · simp [computeSpeed, scenarioBConfig, VimNavConfig.default, Real.rpow_one]
    norm_num
  · intro B
    obtain ⟨n, hn⟩ := pow_unbounded_of_one_lt B (by norm_num : (1:ℝ) < 2)
    refine ⟨(n : ℝ), ?_⟩
    have hval : computeSpeed scenarioAConfig false (n : ℝ) = 1 + 50 * (2:ℝ) ^ n := by
      simp [computeSpeed, scenarioAConfig, VimNavConfig.default]
      norm_num
    rw [hval]
    have hpow : (0:ℝ) ≤ (2:ℝ) ^ n := by positivity
    nlinarith

/-- Witness for C6 applying the cap bound at the scenario B configuration. -/
theorem claim_C6_cap_enforcement_witness :
    computeSpeed scenarioBConfig false 7 ≤ 25 :=
  claim_C6_cap_enforcement.1 scenarioBConfig false 7 25 rfl

/-! ### Position invariant (C7) and tracker consistency (C8) -/

/-- All numeric tunables a speed computation touches are non-negative.  The
shipped defaults satisfy this; negative speeds are outside the spec's model
("speed in pixels"). -/
def ConfigNonneg (cfg : VimNavConfig) : Prop :=
  0 ≤ cfg.initial_move_step ∧ 0 ≤ cfg.acceleration_multiplier ∧
  0 ≤ cfg.acceleration_base ∧ ∀ M, cfg.max_move_step = some M → 0 ≤ M

/-- The position invariant of §3 of the spec: `0 ≤ x ≤ width-1`,
`0 ≤ y ≤ height-1`. -/
def invariantPos (s : CursorState) : Prop :=
  0 ≤ s.x ∧ s.x ≤ s.screen_width - 1 ∧ 0 ≤ s.y ∧ s.y ≤ s.screen_height - 1

lemma computeSpeed_nonneg (cfg : VimNavConfig) (sp : Bool) (h : ℝ)
    (hc : ConfigNonneg cfg) : 0 ≤ computeSpeed cfg sp h := by
  obtain ⟨hi, hm, hb, hmax⟩ := hc
  have hexp : 0 ≤ cfg.acceleration_base ^ h := Real.rpow_nonneg hb h
  have h0 : 0 ≤ cfg.initial_move_step + cfg.acceleration_multiplier * cfg.acceleration_base ^ h :=
    add_nonneg hi (mul_nonneg hm hexp)
  have hpre : 0 ≤
      (if sp then
        (cfg.initial_move_step + cfg.acceleration_multiplier * cfg.acceleration_base ^ h) / 10
      else cfg.initial_move_step + cfg.acceleration_multiplier * cfg.acceleration_base ^ h) := by
    cases sp
    · simpa using h0
    · simpa using div_nonneg h0 (by norm_num)
  simp only [computeSpeed]
  cases hmx : cfg.max_move_step with
  | none => exact hpre
  | some m => exact le_min hpre (hmax m hmx)

lemma update_speed_fst_nonneg (s : CursorState) (key : Key) (now : ℝ)
    (hc : ConfigNonneg s.config) : 0 ≤ (s.update_speed key now).1 := by
  cases hp : s.pressed_keys key with
  | some t =>
    simp only [CursorState.update_speed, hp]
    exact computeSpeed_nonneg s.config s.space_pressed (now - t) hc
  | none =>
    simp only [CursorState.update_speed, hp]
    exact hc.1

lemma update_speed_snd_fields (s : CursorState) (key : Key) (now : ℝ) :
    (s.update_speed key now).2.x = s.x ∧ (s.update_speed key now).2.y = s.y ∧
    (s.update_speed key now).2.screen_width = s.screen_width ∧
    (s.update_speed key now).2.screen_height = s.screen_height := by
  cases hp : s.pressed_keys key <;> simp [CursorState.update_speed, hp]

/-- Scenario C state: `width = 1920`, `x = 960`, and a configuration whose
initial speed is `2000`, so that one leftward move requests a delta of 2000
pixels. -/
noncomputable def scenarioCState : CursorState where
  x := 960
  y := 540
  screen_width := 1920
  screen_height := 1080
  pressed_keys := fun _ => none
  current_speeds := fun _ => none
  shift_pressed := false
  space_pressed := false
  selection_active := false
  config := { VimNavConfig.default with initial_move_step := 2000 }

/-- Claim C7: every movement operation keeps the cursor inside
`[0, width-1] × [0, height-1]` (given a non-negative configuration and a
position already in bounds), regardless of the magnitude of the computed
speed; in particular with `width = 1920`, `x = 960` and a requested leftward
speed of `2000` the resulting `x` is exactly `0`. -/
theorem claim_C7_position_clamp :
    (∀ (s : CursorState) (key : Key) (now : ℝ), ConfigNonneg s.config → invariantPos s →
      invariantPos (s.move_left key now) ∧ invariantPos (s.move_right key now) ∧
      invariantPos (s.move_up key now) ∧ invariantPos (s.move_down key now)) ∧
    (scenarioCState.move_left Key.KeyH 0).x = 0 := by
  constructor
  · intro s key now hc hinv
    obtain ⟨hx0, hxw, hy0, hyh⟩ := hinv
    have hs : 0 ≤ (s.update_speed key now).1 := update_speed_fst_nonneg s key now hc
    obtain ⟨hfx, hfy, hfw, hfh⟩ := update_speed_snd_fields s key now
    refine ⟨⟨?_, ?_, ?_, ?_⟩, ⟨?_, ?_, ?_, ?_⟩, ⟨?_, ?_, ?_, ?_⟩, ⟨?_, ?_, ?_, ?_⟩⟩ <;>
      simp only [CursorState.move_left, CursorState.move_right, CursorState.move_up,
        CursorState.move_down, hfx, hfy, hfw, hfh]
    · exact le_max_right _ _
    · exact max_le (by linarith) (by linarith)
    · exact hy0
    · exact hyh
    · exact le_min (by linarith) (by linarith)
    · exact min_le_right _ _
    · exact hy0
    · exact hyh
    · exact hx0
    · exact hxw
    · exact le_max_right _ _
    · exact max_le (by linarith) (by linarith)
    · exact hx0
    · exact hxw
    · exact le_min (by linarith) (by linarith)
    · exact min_le_right _ _
  · simp [CursorState.move_left, CursorState.update_speed, scenarioCState,
      VimNavConfig.default]
    norm_num

/-- Witness for C7 at the scenario C state. -/
theorem claim_C7_position_clamp_witness :
    invariantPos (scenarioCState.move_left Key.KeyH 0) :=
  (claim_C7_position_clamp.1 scenarioCState Key.KeyH 0
    (by
      refine ⟨by norm_num [scenarioCState, VimNavConfig.default],
        by norm_num [scenarioCState, VimNavConfig.default],
        by norm_num [scenarioCState, VimNavConfig.default], fun M hM => ?_⟩
      simp [scenarioCState, VimNavConfig.default] at hM)
    (by norm_num [invariantPos, scenarioCState])).1

/-- The Tracker-consistency invariant of §3/§8: a key is present in the
press-start map iff it is present in the speed map. -/
def sameDomain (s : CursorState) : Prop :=
  ∀ k, (s.pressed_keys k).isSome = (s.current_speeds k).isSome

/-- A fresh state holding no keys (defaults, pointer at the screen center of a
1920×1080 display, as `CursorState::new` produces). -/
noncomputable def emptyState : CursorState where
  x := 960
  y := 540
  screen_width := 1920
  screen_height := 1080
  pressed_keys := fun _ => none
  current_speeds := fun _ => none
  shift_pressed := false
  space_pressed := false
  selection_active := false
  config := VimNavConfig.default

/-- Claim C8: the two key-hold maps always have the same domain: the property
is preserved by `start_key_press`, `stop_key_press` and `update_speed`, and
the state produced by the clear-on-Typing-entry branch of the callback
satisfies it unconditionally. -/
theorem claim_C8_tracker_consistency :
    (∀ (s : CursorState) (key : Key) (now : ℝ), sameDomain s →
      sameDomain (s.start_key_press key now)) ∧
    (∀ (s : CursorState) (key : Key), sameDomain s → sameDomain (s.stop_key_press key)) ∧
    (∀ (s : CursorState) (key : Key) (now : ℝ), sameDomain s →
      sameDomain (s.update_speed key now).2) ∧
    (∀ (cfg : VimNavConfig) (s : CursorState) (now : ℝ),
      sameDomain ((callback cfg true s (EventType.KeyPress (toggleKey cfg)) now).state)) := by
  refine ⟨?_, ?_, ?_, ?_⟩
  · intro s key now h k
    by_cases hk : k = key <;> simp [CursorState.start_key_press, hk, h k]
  · intro s key h k
    by_cases hk : k = key <;> simp [CursorState.stop_key_press, hk, h k]
  · intro s key now h k
    cases hp : s.pressed_keys key with
    | some t =>
      by_cases hk : k = key
      · simp [CursorState.update_speed, hp, hk]
      · simp [CursorState.update_speed, hp, hk, h k]
    | none => simp [CursorState.update_speed, hp, h k]
  · intro cfg s now k
    simp [callback]

/-- Witness for C8: starting a key press on the fresh empty state keeps the
two maps' domains equal. -/
theorem claim_C8_tracker_consistency_witness :
    sameDomain (emptyState.start_key_press Key.KeyH 0) :=
  claim_C8_tracker_consistency.1 emptyState Key.KeyH 0 (fun _ => rfl)

/-! ### Screen-edge jumps (C9) -/

/-- Scenario D state: `height = 1080`, with a direction key held at a large
recorded speed, to exhibit independence from the held-key speed state. -/
noncomputable def scenarioDState : CursorState :=
  { emptyState with
    x := 777
    y := 300
    pressed_keys := fun k => if k = Key.KeyJ then some 0 else none
    current_speeds := fun k => if k = Key.KeyJ then some 999 else none }

/-- Claim C9: goto-top sets `y` to exactly `0`, goto-bottom sets `y` to
exactly `height - 1`; both leave `x` unchanged and emit exactly one
pointer-move injection; with `height = 1080` (and keys held at arbitrary
speeds) goto-bottom yields `y = 1079`. -/
theorem claim_C9_goto_edges :
    (∀ s : CursorState,
      (goto_screen_edge s true).1.x = s.x ∧
      (goto_screen_edge s true).1.y = 0 ∧
      (goto_screen_edge s true).2 = [EventType.MouseMove s.x 0] ∧
      (goto_screen_edge s false).1.x = s.x ∧
      (goto_screen_edge s false).1.y = s.screen_height - 1 ∧
      (goto_screen_edge s false).2 = [EventType.MouseMove s.x (s.screen_height - 1)]) ∧
    (goto_screen_edge scenarioDState false).1.y = 1079 ∧
    (goto_screen_edge scenarioDState false).1.x = scenarioDState.x := by
  refine ⟨fun s => ⟨rfl, rfl, rfl, rfl, rfl, rfl⟩, ?_, rfl⟩
  show scenarioDState.screen_height - 1 = 1079
  norm_num [scenarioDState, emptyState]

/-! ### Mode toggling (C3, C4) -/

/-- A Mover tick on a state holding no keys moves nothing and emits nothing. -/
lemma moverTick_of_no_held_keys (cfg : VimNavConfig) (b : Bool) (s : CursorState) (now : ℝ)
    (hkeys : ∀ k, s.pressed_keys k = none) :
    moverTick cfg b s now = (s, []) := by
  cases b <;> simp [moverTick, CursorState.is_key_pressed, hkeys]

/-- Counterexample to claim C3 as stated: with the default bindings
(toggle = escape) and navigation enabled, the release of the toggle key is
*forwarded* (`Some(event)`), not suppressed — only the press is consumed. -/
theorem claim_C3_counterexample :
    toggleKey VimNavConfig.default = Key.Escape ∧
    (callback VimNavConfig.default true emptyState
        (EventType.KeyPress Key.Escape) 0).decision = none ∧
    (callback VimNavConfig.default true emptyState
        (EventType.KeyRelease Key.Escape) 0).decision =
      some (EventType.KeyRelease Key.Escape) := by
  refine ⟨rfl, rfl, rfl⟩

/-- Claim C3 (amended): a press of the configured toggle-mode key is always
suppressed, in both transition directions; its release, however, is forwarded
to other applications whenever the toggle key is not also bound as a direction
key and is not the space key. -/
theorem claim_C3_toggle_press_suppressed (cfg : VimNavConfig) (nav : Bool)
    (s : CursorState) (now : ℝ)
    (hleft : toggleKey cfg ≠ leftKey cfg) (hdown : toggleKey cfg ≠ downKey cfg)
    (hup : toggleKey cfg ≠ upKey cfg) (hright : toggleKey cfg ≠ rightKey cfg)
    (hspace : toggleKey cfg ≠ Key.Space) :
    (callback cfg nav s (EventType.KeyPress (toggleKey cfg)) now).decision = none ∧
    (callback cfg nav s (EventType.KeyRelease (toggleKey cfg)) now).decision =
      some (EventType.KeyRelease (toggleKey cfg)) := by
  constructor
  · cases nav <;> simp [callback]
  · simp [callback, hleft, hdown, hup, hright, hspace]

/-- Witness for the amended C3 at the default configuration in navigation
mode. -/
theorem claim_C3_toggle_press_suppressed_witness :
    (callback VimNavConfig.default true emptyState
        (EventType.KeyPress (toggleKey VimNavConfig.default)) 0).decision = none ∧
    (callback VimNavConfig.default true emptyState
        (EventType.KeyRelease (toggleKey VimNavConfig.default)) 0).decision =
      some (EventType.KeyRelease (toggleKey VimNavConfig.default)) :=
  claim_C3_toggle_press_suppressed VimNavConfig.default true emptyState 0
    (by decide) (by decide) (by decide) (by decide) (by decide)

/-- Counterexample to claim C4 as stated: entering Typing mode does *not*
reset the precision (space) modifier flag.  Starting from a state with
`space_pressed = true`, the toggle press does switch to Typing
(`nav_enabled = false`) but leaves `space_pressed = true`, where the claim
requires it to be reset. -/
theorem claim_C4_counterexample :
    (callback VimNavConfig.default true { emptyState with space_pressed := true }
        (EventType.KeyPress Key.Escape) 0).nav_enabled = false ∧
    ((callback VimNavConfig.default true { emptyState with space_pressed := true }
        (EventType.KeyPress Key.Escape) 0).state).space_pressed = true := by
  refine ⟨rfl, rfl⟩

/-- Claim C4 (amended): on the Navigation→Typing transition both key-hold maps
are emptied (the navigation modifier flags are left unchanged — space stays in
sync through its own press/release tracking), so every subsequent Mover tick
performs no movement and emits no pointer-move, even if a release for a
previously held key never arrives. -/
theorem claim_C4_typing_entry_clears_tracker (cfg : VimNavConfig) (s : CursorState) (now : ℝ)
    (hspace : toggleKey cfg ≠ Key.Space) :
    (callback cfg true s (EventType.KeyPress (toggleKey cfg)) now).nav_enabled = false ∧
    (∀ k, ((callback cfg true s (EventType.KeyPress (toggleKey cfg)) now).state).pressed_keys k
      = none) ∧
    (∀ k, ((callback cfg true s (EventType.KeyPress (toggleKey cfg)) now).state).current_speeds k
      = none) ∧
    ((callback cfg true s (EventType.KeyPress (toggleKey cfg)) now).state).space_pressed
      = s.space_pressed ∧
    (∀ (b : Bool) (now2 : ℝ),
      moverTick cfg b ((callback cfg true s (EventType.KeyPress (toggleKey cfg)) now).state) now2
        = ((callback cfg true s (EventType.KeyPress (toggleKey cfg)) now).state, [])) := by
  refine ⟨by simp [callback], fun k => by simp [callback], fun k => by simp [callback], ?_, ?_⟩
  · simp [callback, hspace]
    split <;> rfl
  · intro b now2
    exact moverTick_of_no_held_keys cfg b _ now2 (fun k => by simp [callback])

/-- Witness for the amended C4 at the default configuration with a held key
whose release never arrives. -/
theorem claim_C4_typing_entry_clears_tracker_witness :
    (∀ k, ((callback VimNavConfig.default true (emptyState.start_key_press Key.KeyH 0)
        (EventType.KeyPress (toggleKey VimNavConfig.default)) 1).state).pressed_keys k
      = none) ∧
    (∀ (b : Bool) (now2 : ℝ),
      moverTick VimNavConfig.default b
          ((callback VimNavConfig.default true (emptyState.start_key_press Key.KeyH 0)
            (EventType.KeyPress (toggleKey VimNavConfig.default)) 1).state) now2
        = ((callback VimNavConfig.default true (emptyState.start_key_press Key.KeyH 0)
            (EventType.KeyPress (toggleKey VimNavConfig.default)) 1).state, [])) := by
  obtain ⟨-, h2, -, -, h5⟩ := claim_C4_typing_entry_clears_tracker VimNavConfig.default
    (emptyState.start_key_press Key.KeyH 0) 1 (by decide)
  exact ⟨h2, h5⟩

/-! ### Fallback key resolution (C10) -/

/-- Claim C10: when the configured key-name string for a binding is not
recognized by `string_to_key`, every lookup site substitutes that binding's
fixed built-in default key (left→KeyH, down→KeyJ, up→KeyK, right→KeyL,
toggle→Escape, click→Return, right-click→KeyI, select→KeyV, goto-top→KeyG,
goto-bottom→KeyG, yank→KeyY, paste→KeyP). -/
theorem claim_C10_unrecognized_key_defaults (cfg : VimNavConfig) (str : String)
    (hnone : string_to_key str = none) :
    leftKey { cfg with key_left := str } = Key.KeyH ∧
    downKey { cfg with key_down := str } = Key.KeyJ ∧
    upKey { cfg with key_up := str } = Key.KeyK ∧
    rightKey { cfg with key_right := str } = Key.KeyL ∧
    toggleKey { cfg with key_toggle_mode := str } = Key.Escape ∧
    clickKey { cfg with key_click := str } = Key.Return ∧
    rightClickKey { cfg with key_right_click := str } = Key.KeyI ∧
    selectToggleKey { cfg with key_select_toggle := str } = Key.KeyV ∧
    gotoTopKey { cfg with key_goto_top := str } = Key.KeyG ∧
    gotoBottomKey { cfg with key_goto_bottom := str } = Key.KeyG ∧
    yankKey { cfg with key_yank := str } = Key.KeyY ∧
    pasteKey { cfg with key_paste := str } = Key.KeyP := by
  simp [leftKey, downKey, upKey, rightKey, toggleKey, clickKey, rightClickKey,
    selectToggleKey, gotoTopKey, gotoBottomKey, yankKey, pasteKey, hnone]

/-- Witness for C10 at the unrecognized key-name string "zz". -/
theorem claim_C10_unrecognized_key_defaults_witness :
    string_to_key "zz" = none ∧
    leftKey { VimNavConfig.default with key_left := "zz" } = Key.KeyH ∧
    toggleKey { VimNavConfig.default with key_toggle_mode := "zz" } = Key.Escape := by
  have h := claim_C10_unrecognized_key_defaults VimNavConfig.default "zz" rfl
  exact ⟨rfl, h.1, h.2.2.2.2.1⟩

end VimNav
